import Mathlib

/-!
Verification development for the Agent Activity Simulation & Monitoring Core
of the companyOS repository.

The embedding covers two source components:

* the conversational agent chat component (`AgentChat`): message
  classification, the pricing-optimization side effect with cache
  invalidation, and the send-affordance concurrency discipline;
* the admin monitoring dashboard (`AdminMonitoringDashboard`): the three
  bounded ledgers (executions, data operations, alerts), the random
  generators for executions, data operations and alerts, and the periodic
  tick that drives all state transitions.

Random draws made by the source via `Math.random()` are modelled as explicit
rational parameters in `[0, 1)`.  Time is modelled in seconds as a rational.
Chat message text is modelled as `List Char` (the source lowercases with
`toLowerCase` and tests containment with `includes`).  Purely visual string
payloads (message bodies rendered to the user, React element ids) are not
modelled; every field that any control-flow decision or claim touches is.
-/

namespace CompanyOS

/-- The nine agent types of the chat component (`AgentChatProps.agentType`). -/
inductive AgentType
  | CustomerServiceAgent
  | RecommendationAgent
  | PricingAgent
  | InventoryAgent
  | DataAnalysisAgent
  | MarketingAgent
  | FinancialAnalystAgent
  | SEOAgent
  | SupplyChainAgent
deriving DecidableEq, Repr

/-- Role of a chat message (`Message.type` in the source: user or agent). -/
inductive MsgRole
  | user
  | agent
deriving DecidableEq, Repr

/-- Delivery status of a chat message (`Message.status` in the source). -/
inductive MessageStatus
  | sending
  | sent
  | processing
  | completed
  | error
deriving DecidableEq, Repr

/-- Metadata attached to agent chat messages (`Message.metadata`).  The
source additionally attaches display-only counters on the pricing success
path (`products_updated`, `average_increase`, `real_changes`); no decision
reads them, and the decision-relevant `optimization_applied` flag is kept. -/
structure Metadata where
  confidence : ℚ
  category : String
  actions : List String
  optimization_applied : Option Bool := none
deriving DecidableEq, Repr

/-- A chat message as stored in the session's message list.  The rendered
text body and timestamp are display-only and not modelled. -/
structure ChatMessage where
  role : MsgRole
  status : MessageStatus
  metadata : Option Metadata := none
deriving DecidableEq, Repr

/-- Lowercasing of message text, modelling `String.prototype.toLowerCase`
as applied by `handleSendMessage` and `generateAgentResponse`. -/
def lowerL (l : List Char) : List Char := l.map Char.toLower

/-- Substring containment, modelling `String.prototype.includes`. -/
def includesL (hay needle : List Char) : Bool := decide (needle <:+: hay)

/-- Whitespace trimming, modelling `String.prototype.trim` as used by the
guard `if (!inputMessage.trim()) return;` and the send-button predicate. -/
def jsTrim (l : List Char) : List Char :=
  ((l.dropWhile Char.isWhitespace).reverse.dropWhile Char.isWhitespace).reverse

/-- The classification test for pricing market-conditions questions
(`isPricingMarketQuestion` in `handleSendMessage`). -/
def isPricingMarketQuestion (t : AgentType) (m : List Char) : Bool :=
  t = AgentType.PricingAgent &&
    (includesL (lowerL m) "market conditions".toList ||
     lowerL m = "how are market conditions affecting pricing?".toList ||
     (includesL (lowerL m) "market".toList && includesL (lowerL m) "affecting".toList &&
      includesL (lowerL m) "pricing".toList))

/-- The classification test for pricing optimization questions
(`isPricingOptimizationQuestion` in `handleSendMessage`).  JavaScript
operator precedence groups the first two `includes` under `&&`. -/
def isPricingOptimizationQuestion (t : AgentType) (m : List Char) : Bool :=
  t = AgentType.PricingAgent &&
    ((includesL (lowerL m) "optimize".toList && includesL (lowerL m) "pricing".toList) ||
     includesL (lowerL m) "can you optimize our pricing strategy".toList ||
     includesL (lowerL m) "pricing strategy".toList)

/-- The three request routes of `handleSendMessage`: the pricing
optimization fast path, the pricing market-conditions two-stage path, and
the regular canned-response path.  The optimization test is evaluated
first, matching the if / else-if order of the source. -/
inductive Route
  | pricingOpt
  | pricingMarket
  | regular
deriving DecidableEq, Repr

/-- Route selection of `handleSendMessage` (the `if (isPricingOptimizationQuestion)
... else if (isPricingMarketQuestion) ... else ...` chain). -/
def classify (t : AgentType) (m : List Char) : Route :=
  if isPricingOptimizationQuestion t m then Route.pricingOpt
  else if isPricingMarketQuestion t m then Route.pricingMarket
  else Route.regular

/-- Payload returned by the external Pricing Service
(`apiService.optimizePricing`, a single POST to
`/api/agents/pricing/optimize`).  Both fields may be absent; the source
reads them with `|| 5` and `|| '3.2'` fallbacks for display only. -/
structure OptimizationResult where
  total_products_updated : Option ℕ := none
  average_increase_percent : Option ℚ := none
deriving DecidableEq, Repr

/-- Externally observable backend effects of resolving one chat response:
how many calls were made to `apiService.optimizePricing`, and which query
keys were invalidated on the product-catalog cache. -/
structure BackendEffects where
  optimizeCalls : ℕ
  invalidatedKeys : List String
deriving DecidableEq, Repr

/-- Result of the pricing optimization handler: the reply metadata plus
the backend effects performed while producing it. -/
structure PricingOutcome where
  reply : Metadata
  effects : BackendEffects
deriving DecidableEq, Repr

/-- Reply metadata of the successful pricing optimization path. -/
def optimizationSuccessMetadata : Metadata :=
  { confidence := 96/100
    category := "pricing_optimization"
    actions := ["price_updates", "market_analysis", "profit_optimization"]
    optimization_applied := some true }

/-- Reply metadata of the degraded analysis-only path taken by the catch
block of `handlePricingOptimization` when the service call rejects. -/
def optimizationFailureMetadata : Metadata :=
  { confidence := 75/100
    category := "pricing_analysis"
    actions := ["web_research", "market_analysis", "strategic_recommendations"]
    optimization_applied := some false }

/-- The `handlePricingOptimization` function of `AgentChat`.  The single
awaited call to the Pricing Service is modelled by the `svc` argument,
carrying either the parsed response or the rejection.  On success the
source invalidates the `products` and `featured-products` query keys and
returns the optimization metadata; on failure (the catch block) it
invalidates nothing and returns the degraded analysis-only metadata.  In
both branches exactly one service call was issued and none is retried. -/
def handlePricingOptimization (svc : Except Unit OptimizationResult) : PricingOutcome :=
  match svc with
  | Except.ok _ =>
      { reply := optimizationSuccessMetadata
        effects := { optimizeCalls := 1, invalidatedKeys := ["products", "featured-products"] } }
  | Except.error _ =>
      { reply := optimizationFailureMetadata
        effects := { optimizeCalls := 1, invalidatedKeys := [] } }

/-- Keyword-to-metadata response table of `generateAgentResponse`, in the
source's object-literal order (first match wins; the `default` entry is
kept separately in `defaultResponse`). -/
def responseTable (t : AgentType) : List (String × Metadata) :=
  match t with
  | AgentType.CustomerServiceAgent =>
      [("order", { confidence := 95/100, category := "order_inquiry",
                   actions := ["check_order_status", "provide_tracking"] }),
       ("12345", { confidence := 98/100, category := "order_status_detailed",
                   actions := ["order_lookup", "priority_escalation", "compensation_applied"] }),
       ("67890", { confidence := 97/100, category := "order_status_detailed",
                   actions := ["live_tracking", "delivery_notification", "signature_alert"] }),
       ("54321", { confidence := 99/100, category := "order_status_detailed",
                   actions := ["issue_resolution", "upgrade_applied", "compensation_added"] }),
       ("return", { confidence := 94/100, category := "return_request",
                    actions := ["instant_label_generation", "fast_refund", "personalized_recommendations"] }),
       ("shipping", { confidence := 91/100, category := "shipping_inquiry",
                      actions := ["real_time_tracking", "address_updates", "carrier_coordination"] })]
  | AgentType.RecommendationAgent =>
      [("recommend", { confidence := 91/100, category := "product_recommendation",
                       actions := ["analyze_trends", "personalize_suggestions"] }),
       ("trending", { confidence := 89/100, category := "trending_analysis",
                      actions := ["trend_analysis", "sales_data_review"] }),
       ("customer", { confidence := 87/100, category := "customer_analysis",
                      actions := ["analyze_demographics", "identify_cross_sell"] })]
  | AgentType.PricingAgent =>
      [("price", { confidence := 93/100, category := "price_optimization",
                   actions := ["market_analysis", "competitor_tracking", "demand_forecasting"] }),
       ("market", { confidence := 94/100, category := "market_analysis",
                    actions := ["web_research", "competitor_analysis", "trend_monitoring", "price_optimization"] }),
       ("profit", { confidence := 88/100, category := "profit_optimization",
                    actions := ["margin_analysis", "elasticity_calculation"] })]
  | AgentType.InventoryAgent =>
      [("stock", { confidence := 96/100, category := "stock_monitoring",
                   actions := ["stock_check", "reorder_trigger", "demand_forecast"] }),
       ("demand", { confidence := 92/100, category := "demand_forecasting",
                    actions := ["trend_analysis", "seasonal_adjustment", "safety_stock_optimization"] }),
       ("reorder", { confidence := 89/100, category := "automated_reordering",
                     actions := ["eoq_calculation", "supplier_optimization", "lead_time_analysis"] })]
  | AgentType.DataAnalysisAgent =>
      [("data", { confidence := 91/100, category := "data_analysis",
                  actions := ["trend_analysis", "predictive_modeling", "anomaly_detection"] }),
       ("trend", { confidence := 88/100, category := "trend_analysis",
                   actions := ["seasonal_forecasting", "growth_analysis"] }),
       ("predict", { confidence := 85/100, category := "predictive_analytics",
                     actions := ["revenue_forecasting", "churn_prediction"] })]
  | AgentType.MarketingAgent =>
      [("campaign", { confidence := 92/100, category := "campaign_management",
                      actions := ["campaign_optimization", "roi_analysis"] }),
       ("optimize", { confidence := 94/100, category := "campaign_optimization",
                      actions := ["budget_reallocation", "performance_optimization", "roi_maximization"] }),
       ("audience", { confidence := 89/100, category := "audience_targeting",
                      actions := ["segmentation", "personalization"] }),
       ("marketing", { confidence := 86/100, category := "marketing_automation",
                       actions := ["automation", "optimization"] })]
  | AgentType.FinancialAnalystAgent =>
      [("budget", { confidence := 88/100, category := "budget_optimization",
                    actions := ["allocation_analysis", "roi_optimization"] }),
       ("financial", { confidence := 91/100, category := "financial_health",
                       actions := ["health_assessment", "metric_analysis"] }),
       ("investment", { confidence := 84/100, category := "investment_analysis",
                        actions := ["roi_calculation", "risk_assessment"] })]
  | AgentType.SEOAgent =>
      [("seo", { confidence := 90/100, category := "seo_performance",
                 actions := ["keyword_tracking", "ranking_analysis"] }),
       ("keyword", { confidence := 87/100, category := "keyword_research",
                     actions := ["opportunity_identification", "competition_analysis"] }),
       ("content", { confidence := 85/100, category := "content_optimization",
                     actions := ["content_strategy", "page_optimization"] })]
  | AgentType.SupplyChainAgent =>
      [("supply", { confidence := 93/100, category := "supply_management",
                    actions := ["supplier_optimization", "delivery_tracking"] }),
       ("logistics", { confidence := 89/100, category := "logistics_optimization",
                       actions := ["route_optimization", "carrier_management"] }),
       ("delivery", { confidence := 86/100, category := "delivery_optimization",
                      actions := ["performance_tracking", "innovation_testing"] })]

/-- The per-agent-type `default` fallback entries of `generateAgentResponse`. -/
def defaultResponse (t : AgentType) : Metadata :=
  match t with
  | AgentType.CustomerServiceAgent =>
      { confidence := 75/100, category := "general",
        actions := ["intelligent_routing", "context_preservation", "vip_escalation"] }
  | AgentType.RecommendationAgent =>
      { confidence := 75/100, category := "general_recommendation",
        actions := ["data_analysis", "pattern_recognition"] }
  | AgentType.PricingAgent =>
      { confidence := 80/100, category := "pricing_strategy",
        actions := ["algorithm_analysis", "strategy_development"] }
  | AgentType.InventoryAgent =>
      { confidence := 78/100, category := "inventory_management",
        actions := ["comprehensive_analysis", "optimization_strategy"] }
  | AgentType.DataAnalysisAgent =>
      { confidence := 78/100, category := "business_intelligence",
        actions := ["data_mining", "insight_generation"] }
  | AgentType.MarketingAgent =>
      { confidence := 80/100, category := "marketing_strategy",
        actions := ["campaign_creation", "performance_optimization"] }
  | AgentType.FinancialAnalystAgent =>
      { confidence := 82/100, category := "financial_analysis",
        actions := ["comprehensive_analysis", "strategic_planning"] }
  | AgentType.SEOAgent =>
      { confidence := 83/100, category := "seo_management",
        actions := ["holistic_optimization", "performance_tracking"] }
  | AgentType.SupplyChainAgent =>
      { confidence := 81/100, category := "supply_chain_management",
        actions := ["end_to_end_optimization", "performance_monitoring"] }

/-- The `generateAgentResponse` function: first keyword (in table order)
contained in the lowercased message wins; otherwise the per-type default. -/
def generateAgentResponse (t : AgentType) (m : List Char) : Metadata :=
  match (responseTable t).find? (fun kv => includesL (lowerL m) kv.1.toList) with
  | some kv => kv.2
  | none => defaultResponse t

/-- A response scheduled by `handleSendMessage` but not yet delivered: the
`setTimeout` closure, remembering which route was chosen and the captured
message text (`currentMessage`). -/
structure PendingRequest where
  route : Route
  text : List Char
deriving DecidableEq, Repr

/-- State of one chat session: the message list, the input field content,
the `isTyping` flag, and the queue of scheduled (not yet fired) response
timers in scheduling order. -/
structure SessionState where
  messages : List ChatMessage
  inputMessage : List Char
  isTyping : Bool
  pending : List PendingRequest
deriving DecidableEq, Repr

/-- The `handleSendMessage` handler body: bail out if the trimmed input is
empty; otherwise append the user message, clear the input, raise
`isTyping`, classify the captured text, and schedule the matching response
timer.  The handler itself has no `isTyping` guard: re-entrance is
prevented at the UI affordances (`clickSend` / `inputEnterKey` below). -/
def handleSendMessage (t : AgentType) (st : SessionState) : SessionState :=
  if jsTrim st.inputMessage = [] then st
  else
    { messages := st.messages ++ [{ role := MsgRole.user, status := MessageStatus.sent }]
      inputMessage := []
      isTyping := true
      pending := st.pending ++ [{ route := classify t st.inputMessage, text := st.inputMessage }] }

/-- Firing of the oldest scheduled response timer.  For the pricing
optimization route the handler performs the real backend call (outcome
`svc`) via `handlePricingOptimization`; every other route produces a
canned `generateAgentResponse` reply with no backend effects.  The agent
message is appended with status `completed` and `isTyping` is cleared. -/
def resolvePending (t : AgentType) (svc : Except Unit OptimizationResult)
    (st : SessionState) : SessionState × BackendEffects :=
  match st.pending with
  | [] => (st, { optimizeCalls := 0, invalidatedKeys := [] })
  | p :: rest =>
      let outcome : PricingOutcome :=
        match p.route with
        | Route.pricingOpt => handlePricingOptimization svc
        | _ => { reply := generateAgentResponse t p.text
                 effects := { optimizeCalls := 0, invalidatedKeys := [] } }
      ({ messages := st.messages ++
            [{ role := MsgRole.agent, status := MessageStatus.completed,
               metadata := some outcome.reply }]
         inputMessage := st.inputMessage
         isTyping := false
         pending := rest }, outcome.effects)

/-- The send button's `disabled` predicate:
`disabled={!inputMessage.trim() || isTyping}`. -/
def sendDisabled (st : SessionState) : Bool :=
  decide (jsTrim st.inputMessage = []) || st.isTyping

/-- Clicking the send button: a disabled button fires no click handler, so
`handleSendMessage` runs only when `sendDisabled` is false. -/
def clickSend (t : AgentType) (st : SessionState) : SessionState :=
  if sendDisabled st then st else handleSendMessage t st

/-- Pressing Enter in the input field: the input carries
`disabled={isTyping}`, so its key handler cannot fire while a response is
pending; otherwise it invokes `handleSendMessage` (which still applies its
own empty-input guard). -/
def inputEnterKey (t : AgentType) (st : SessionState) : SessionState :=
  if st.isTyping then st else handleSendMessage t st

/-! ### Monitoring dashboard: data model -/

/-- Execution lifecycle states (`AgentExecution.status` in the source).
The source type admits `failed`, but no code path ever assigns it. -/
inductive Status
  | running
  | completed
  | stopped
  | failed
deriving DecidableEq, Repr

/-- One simulated agent execution.  The React key `id` is display-only and
not modelled; time is in seconds. -/
structure AgentExecution where
  agentName : String
  operation : String
  status : Status
  startTime : ℚ
  duration : ℚ
  dataProcessed : ℕ
deriving DecidableEq, Repr

/-- Kinds of synthetic database operations (`DataOperation.operation`). -/
inductive OpKind
  | INSERT
  | SELECT
  | UPDATE
  | DELETE
deriving DecidableEq, Repr

/-- One synthetic database operation (`DataOperation`), `id` omitted. -/
structure DataOperation where
  table : String
  operation : OpKind
  recordsAffected : ℕ
  timestamp : ℚ
  agent : String
deriving DecidableEq, Repr

/-- Alert severities (`MonitoringAlert.severity`). -/
inductive Severity
  | low
  | medium
  | high
deriving DecidableEq, Repr

/-- Structured detail payload of a monitoring alert
(`MonitoringAlert.details`).  At most one of the three optional metrics is
populated, depending on the archetype. -/
structure AlertDetails where
  description : String
  affectedOperations : List String
  confidenceScore : Option ℤ := none
  accuracy : Option ℤ := none
  dataQuality : Option ℤ := none
  recommendation : String
  impact : String
deriving DecidableEq, Repr

/-- One monitoring alert (`MonitoringAlert`), `id` omitted. -/
structure MonitoringAlert where
  agentName : String
  reason : String
  timestamp : ℚ
  severity : Severity
  details : AlertDetails
deriving DecidableEq, Repr

/-! ### Catalogs and uniform picking -/

/-- The fixed catalog of agent names used by the dashboard generators. -/
def agentNames : List String :=
  ["InventoryAgent", "PricingAgent", "CustomerServiceAgent", "RecommendationAgent",
   "DataAnalysisAgent", "MarketingAgent", "FinancialAnalystAgent", "SEOAgent", "SupplyChainAgent"]

/-- The fixed catalog of operation descriptions. -/
def operations : List String :=
  ["Analyzing inventory levels", "Processing customer data", "Optimizing pricing strategy",
   "Generating recommendations", "Updating product catalog", "Processing orders",
   "Analyzing market trends", "Optimizing supply chain", "Managing customer queries",
   "Forecasting demand", "Calculating ROI", "SEO optimization"]

/-- The fixed catalog of table names. -/
def tables : List String :=
  ["products", "orders", "customers", "inventory", "analytics", "pricing", "recommendations"]

/-- Uniform catalog pick: `catalog[Math.floor(r * catalog.length)]` for a
draw `r` in `[0, 1)`.  `dflt` is only reached for out-of-range draws. -/
def pickUniform {α : Type} (l : List α) (r : ℚ) (dflt : α) : α :=
  l.getD (Int.toNat ⌊r * (l.length : ℚ)⌋) dflt

/-! ### Alert generator -/

/-- One alert archetype entry of the `alertTypes` array inside
`generateAlert`.  The source builds the array eagerly, drawing each
archetype's metric before selection; the metric draws are therefore
parameters of `alertTypes` below. -/
structure AlertType where
  reason : String
  description : String
  operations : List String
  recommendation : String
  impact : String
  severity : Severity
  confidenceScore : Option ℤ := none
  accuracy : Option ℤ := none
  dataQuality : Option ℤ := none
deriving DecidableEq, Repr

/-- The six alert archetypes of `generateAlert`, in source order, with the
three metric values drawn from `Math.floor(Math.random() * span) + base`. -/
def alertTypes (rConf rQual rAcc : ℚ) : List AlertType :=
  [{ reason := "Low confidence score detected"
     description := "AI model predictions showing reduced confidence levels below acceptable threshold"
     operations := ["Prediction Generation", "Model Inference", "Data Classification"]
     recommendation := "Review training data quality and consider model retraining"
     impact := "Reduced prediction accuracy may affect business decisions"
     severity := Severity.medium
     confidenceScore := some (⌊rConf * 30⌋ + 45) },
   { reason := "Data quality degradation"
     description := "Input data quality metrics have fallen below monitoring thresholds"
     operations := ["Data Ingestion", "Feature Engineering", "Data Validation"]
     recommendation := "Investigate data sources and implement data quality checks"
     impact := "Poor data quality may lead to unreliable AI predictions"
     severity := Severity.high
     dataQuality := some (⌊rQual * 25⌋ + 60) },
   { reason := "Model accuracy drift detected"
     description := "Significant deviation from baseline accuracy metrics observed"
     operations := ["Model Evaluation", "Performance Monitoring", "Prediction Validation"]
     recommendation := "Analyze recent data patterns and consider model recalibration"
     impact := "Declining accuracy affects reliability of automated decisions"
     severity := Severity.high
     accuracy := some (⌊rAcc * 15⌋ + 75) },
   { reason := "Anomalous prediction patterns"
     description := "Unusual clustering or distribution of model predictions detected"
     operations := ["Anomaly Detection", "Pattern Analysis", "Statistical Monitoring"]
     recommendation := "Review input data for unexpected changes or patterns"
     impact := "May indicate data shift or concept drift affecting performance"
     severity := Severity.medium },
   { reason := "Feature importance shift"
     description := "Significant changes in feature importance rankings detected"
     operations := ["Feature Analysis", "Model Interpretation", "Importance Tracking"]
     recommendation := "Investigate underlying data changes and validate feature relevance"
     impact := "May indicate concept drift or data distribution changes"
     severity := Severity.low },
   { reason := "Prediction latency spike"
     description := "Model inference time has exceeded performance thresholds"
     operations := ["Inference Pipeline", "Performance Monitoring", "Resource Allocation"]
     recommendation := "Optimize model architecture or increase computational resources"
     impact := "Delayed predictions may affect real-time decision making"
     severity := Severity.medium }]

/-- The random draws consumed by one `generateAlert` call: the three
metric draws made while building `alertTypes`, the 70% selection draw, and
the uniform index draw over the remaining five archetypes. -/
structure AlertDraws where
  rConf : ℚ
  rQual : ℚ
  rAcc : ℚ
  rSel : ℚ
  rIdx : ℚ
deriving DecidableEq, Repr

/-- Archetype selection of `generateAlert`:
`Math.random() < 0.7 ? 0 : Math.floor(Math.random() * (length - 1)) + 1`. -/
def selectedAlertIndex (d : AlertDraws) : ℕ :=
  if d.rSel < 7/10 then 0
  else Int.toNat ⌊d.rIdx * (((alertTypes d.rConf d.rQual d.rAcc).length - 1 : ℕ) : ℚ)⌋ + 1

/-- Fallback archetype for an out-of-range index; never reached for draws
in `[0, 1)`. -/
def emptyAlertType : AlertType :=
  { reason := "", description := "", operations := [], recommendation := "",
    impact := "", severity := Severity.low }

/-- The `generateAlert` function: select an archetype and copy its fields
(including whichever single metric it populated) into a fresh alert. -/
def generateAlert (agentName : String) (now : ℚ) (d : AlertDraws) : MonitoringAlert :=
  let alertType := (alertTypes d.rConf d.rQual d.rAcc).getD (selectedAlertIndex d) emptyAlertType
  { agentName := agentName
    reason := alertType.reason
    timestamp := now
    severity := alertType.severity
    details :=
      { description := alertType.description
        affectedOperations := alertType.operations
        confidenceScore := alertType.confidenceScore
        accuracy := alertType.accuracy
        dataQuality := alertType.dataQuality
        recommendation := alertType.recommendation
        impact := alertType.impact } }

/-! ### Data operation and execution generators -/

/-- Operation-kind selection of `generateDataOperation`:
`rand < 0.9 ? SELECT : (rand < 0.95 ? INSERT : UPDATE)`. -/
def genOpKind (r : ℚ) : OpKind :=
  if r < 9/10 then OpKind.SELECT
  else if r < 95/100 then OpKind.INSERT
  else OpKind.UPDATE

/-- Draws consumed by one `generateDataOperation` call. -/
structure DataOpDraws where
  rTable : ℚ
  rOp : ℚ
  rRec : ℚ
deriving DecidableEq, Repr

/-- The `generateDataOperation` function of the tick effect. -/
def generateDataOperation (agent : String) (now : ℚ) (d : DataOpDraws) : DataOperation :=
  { table := pickUniform tables d.rTable ""
    operation := genOpKind d.rOp
    recordsAffected := Int.toNat ⌊d.rRec * 25000⌋ + 5000
    timestamp := now
    agent := agent }

/-- Draws consumed by one `generateExecution` call. -/
structure ExecGenDraws where
  rAgent : ℚ
  rOp : ℚ
  rData : ℚ
deriving DecidableEq, Repr

/-- The `generateExecution` function: a fresh execution starts `running`
with zero duration.  No completion threshold is stored on the record. -/
def generateExecution (now : ℚ) (d : ExecGenDraws) : AgentExecution :=
  { agentName := pickUniform agentNames d.rAgent ""
    operation := pickUniform operations d.rOp ""
    status := Status.running
    startTime := now
    duration := 0
    dataProcessed := Int.toNat ⌊d.rData * 50000⌋ + 10000 }

/-! ### Bounded ledger insertion -/

/-- Execution-ledger insertion: `[newExecution, ...prev.slice(0, 49)]`
(capacity 50, newest first). -/
def insertExecution (x : AgentExecution) (prev : List AgentExecution) : List AgentExecution :=
  x :: prev.take 49

/-- Data-operation ledger insertion: `[dataOp, ...prevOps.slice(0, 99)]`
(capacity 100, newest first). -/
def insertDataOp (x : DataOperation) (prev : List DataOperation) : List DataOperation :=
  x :: prev.take 99

/-- Alert ledger insertion: `[alert, ...prevAlerts.slice(0, 14)]`
(capacity 15, newest first). -/
def insertAlert (x : MonitoringAlert) (prev : List MonitoringAlert) : List MonitoringAlert :=
  x :: prev.take 14

/-! ### The tick -/

/-- Draws consumed when the tick callback visits one running execution:
the 30% work-emission draw and its operation draws, the 2% forced-stop
draw and its alert draws, the fresh completion-threshold draw, and the
draws for the one or two staggered final write-back operations. -/
structure ExecTickDraws where
  rDataOp : ℚ
  dataOp : DataOpDraws
  rStop : ℚ
  alert : AlertDraws
  rThresh : ℚ
  rNumOps : ℚ
  finalOp1 : DataOpDraws
  finalOp2 : DataOpDraws
deriving DecidableEq, Repr

/-- Result of visiting one execution in the tick's update map: the updated
execution, the data operation emitted inline (30% branch), the alert
emitted on a forced stop, and the final write-back operations scheduled
via `setTimeout` on completion. -/
structure ExecStepResult where
  exec : AgentExecution
  emittedOps : List DataOperation
  emittedAlert : Option MonitoringAlert
  scheduledOps : List DataOperation
deriving DecidableEq, Repr

/-- The body of the tick's `setExecutions(prev => prev.map(...))` update
for one execution.  For a running execution, in source order: add 2
seconds of duration; with probability 0.3 emit a data operation; with
probability 0.02 transition to `stopped` and emit an alert; otherwise, if
the new duration exceeds the freshly drawn threshold `3 + rThresh * 12`,
transition to `completed` and schedule `Math.floor(r * 2) + 1` final
operations.  Non-running executions are returned unchanged.  The source's
`newDuration` binding is inlined as `e.duration + 2`. -/
def updateExec (now : ℚ) (d : ExecTickDraws) (e : AgentExecution) : ExecStepResult :=
  if e.status = Status.running then
    if d.rStop < 1/50 then
      { exec := { e with status := Status.stopped, duration := e.duration + 2 }
        emittedOps := if d.rDataOp < 3/10 then [generateDataOperation e.agentName now d.dataOp] else []
        emittedAlert := some (generateAlert e.agentName now d.alert)
        scheduledOps := [] }
    else if e.duration + 2 > 3 + d.rThresh * 12 then
      { exec := { e with status := Status.completed, duration := e.duration + 2 }
        emittedOps := if d.rDataOp < 3/10 then [generateDataOperation e.agentName now d.dataOp] else []
        emittedAlert := none
        scheduledOps :=
          if Int.toNat ⌊d.rNumOps * 2⌋ + 1 = 2 then
            [generateDataOperation e.agentName now d.finalOp1,
             generateDataOperation e.agentName now d.finalOp2]
          else
            [generateDataOperation e.agentName now d.finalOp1] }
    else
      { exec := { e with duration := e.duration + 2 }
        emittedOps := if d.rDataOp < 3/10 then [generateDataOperation e.agentName now d.dataOp] else []
        emittedAlert := none
        scheduledOps := [] }
  else
    { exec := e, emittedOps := [], emittedAlert := none, scheduledOps := [] }

/-- Number of `running` executions in a ledger snapshot. -/
def runningCount (l : List AgentExecution) : ℕ :=
  (l.filter fun e => decide (e.status = Status.running)).length

/-- Draws consumed by the tick's spawn check. -/
structure SpawnDraws where
  rChance : ℚ
  gen : ExecGenDraws
deriving DecidableEq, Repr

/-- The tick's first `setExecutions`: spawn a new execution when no
execution is running, or when fewer than 3 are running and the 40% coin
succeeds; the new execution is prepended with capacity-50 eviction. -/
def spawnStep (now : ℚ) (d : SpawnDraws) (prev : List AgentExecution) : List AgentExecution :=
  if runningCount prev = 0 ∨ (runningCount prev < 3 ∧ d.rChance < 2/5) then
    insertExecution (generateExecution now d.gen) prev
  else prev

/-- The tick's update map applied position-wise: the execution at index
`i` consumes the draw bundle `ds (start + i)`. -/
def updateAllFrom (now : ℚ) (ds : ℕ → ExecTickDraws) (start : ℕ) :
    List AgentExecution → List ExecStepResult
  | [] => []
  | e :: es => updateExec now (ds start) e :: updateAllFrom now ds (start + 1) es

/-- One full tick of the `setInterval` callback, restricted to the
executions ledger: spawn check first, then the update map over the
(possibly extended) ledger. -/
def tickExecutions (now : ℚ) (sd : SpawnDraws) (ds : ℕ → ExecTickDraws)
    (prev : List AgentExecution) : List AgentExecution :=
  (updateAllFrom now ds 0 (spawnStep now sd prev)).map ExecStepResult.exec

/-! ### Initial seeding of the executions ledger -/

/-- Draws consumed when seeding one initial execution. -/
structure InitExecDraws where
  rAgent : ℚ
  rOp : ℚ
  rTime : ℚ
  rDur : ℚ
  rData : ℚ
deriving DecidableEq, Repr

/-- One seeded running execution: started up to 15 seconds ago, duration
equal to the elapsed time. -/
def initialRunning (now : ℚ) (d : InitExecDraws) : AgentExecution :=
  { agentName := pickUniform agentNames d.rAgent ""
    operation := pickUniform operations d.rOp ""
    status := Status.running
    startTime := now - d.rTime * 15
    duration := d.rTime * 15
    dataProcessed := Int.toNat ⌊d.rData * 50000⌋ + 10000 }

/-- One seeded completed execution: finished up to 30 minutes ago with a
duration of 3 to 15 seconds. -/
def initialCompleted (now : ℚ) (d : InitExecDraws) : AgentExecution :=
  { agentName := pickUniform agentNames d.rAgent ""
    operation := pickUniform operations d.rOp ""
    status := Status.completed
    startTime := (now - d.rTime * 1800) - (3 + d.rDur * 12)
    duration := 3 + d.rDur * 12
    dataProcessed := Int.toNat ⌊d.rData * 50000⌋ + 10000 }

/-- One seeded stopped execution: stopped up to 15 minutes ago with a
duration of 1 to 4 seconds. -/
def initialStopped (now : ℚ) (d : InitExecDraws) : AgentExecution :=
  { agentName := pickUniform agentNames d.rAgent ""
    operation := pickUniform operations d.rOp ""
    status := Status.stopped
    startTime := (now - d.rTime * 900) - (1 + d.rDur * 3)
    duration := 1 + d.rDur * 3
    dataProcessed := Int.toNat ⌊d.rData * 30000⌋ + 5000 }

/-- The initial executions ledger: 1 to 3 running, 15 to 20 completed and
2 to 4 stopped executions (counts are parameters here, their random source
being `1 + floor(r * k)` in the source), sorted most-recent-first by
`startTime`. -/
def initialExecutions (now : ℚ) (nRun nComp nStop : ℕ)
    (fr fc fs : ℕ → InitExecDraws) : List AgentExecution :=
  (((List.range nRun).map fun i => initialRunning now (fr i)) ++
   ((List.range nComp).map fun i => initialCompleted now (fc i)) ++
   ((List.range nStop).map fun i => initialStopped now (fs i))).mergeSort
    fun a b => decide (b.startTime ≤ a.startTime)

/-- All random draws consumed by one tick. -/
structure TickDraws where
  spawn : SpawnDraws
  execs : ℕ → ExecTickDraws

/-- Iterated ticks over the executions ledger. -/
def runTicks (now : ℚ) (ts : List TickDraws) (l : List AgentExecution) : List AgentExecution :=
  ts.foldl (fun acc t => tickExecutions now t.spawn t.execs acc) l

/-! ### Concrete draw vectors for counterexamples and witnesses -/

/-- All-zero data-operation draws. -/
def zeroDataOpDraws : DataOpDraws := { rTable := 0, rOp := 0, rRec := 0 }

/-- All-zero alert draws. -/
def zeroAlertDraws : AlertDraws := { rConf := 0, rQual := 0, rAcc := 0, rSel := 0, rIdx := 0 }

/-- All-zero execution-generation draws. -/
def zeroExecGenDraws : ExecGenDraws := { rAgent := 0, rOp := 0, rData := 0 }

/-- Tick draws whose forced-stop draw succeeds (0 < 0.02). -/
def stopTickDraws : ExecTickDraws :=
  { rDataOp := 0, dataOp := zeroDataOpDraws, rStop := 0, alert := zeroAlertDraws,
    rThresh := 0, rNumOps := 0, finalOp1 := zeroDataOpDraws, finalOp2 := zeroDataOpDraws }

/-- Tick draws with a failing stop draw and the lowest completion
threshold draw (threshold 3). -/
def lowThresholdDraws : ExecTickDraws :=
  { stopTickDraws with rStop := 1/2, rThresh := 0 }

/-- Tick draws with a failing stop draw and a high completion threshold
draw (threshold 3 + 10.8 = 13.8). -/
def highThresholdDraws : ExecTickDraws :=
  { stopTickDraws with rStop := 1/2, rThresh := 9/10 }

/-- All-zero spawn draws. -/
def zeroSpawnDraws : SpawnDraws := { rChance := 0, gen := zeroExecGenDraws }

/-- A running execution that has accumulated 10 seconds of duration. -/
def execAtTen : AgentExecution :=
  { agentName := "PricingAgent", operation := "Optimizing pricing strategy",
    status := Status.running, startTime := 0, duration := 10, dataProcessed := 10000 }

/-! ### Shared helper lemmas -/

/-- Prepending then truncating absorbs an inner truncation one shorter. -/
theorem take_cons_take {α : Type} (c : ℕ) (a : α) (l m : List α) :
    (m ++ a :: l.take (c - 1)).take c = (m ++ a :: l).take c := by
  rcases le_or_lt c m.length with h | h
  · rw [List.take_append_eq_append_take, List.take_append_eq_append_take]
    have hz : c - m.length = 0 := by omega
    simp [hz]
  · rw [List.take_append_eq_append_take, List.take_append_eq_append_take]
    congr 1
    have hk : c - m.length = (c - m.length - 1) + 1 := by omega
    rw [hk, List.take_succ_cons, List.take_succ_cons, List.take_take,
      Nat.min_eq_left (by omega)]

/-- Folding bounded insertions retains exactly the most recent `c` entries
by insertion order (newest first), for any start state within capacity. -/
theorem foldl_take_insert {α : Type} (c : ℕ) (hc : 1 ≤ c) (xs : List α) :
    ∀ l0 : List α, l0.length ≤ c →
      xs.foldl (fun l x => x :: l.take (c - 1)) l0 = (xs.reverse ++ l0).take c := by
  induction xs with
  | nil =>
      intro l0 h0
      simp [List.take_of_length_le h0]
  | cons a as ih =>
      intro l0 h0
      rw [List.foldl_cons, ih (a :: l0.take (c - 1)) (by simp; omega), List.reverse_cons,
        List.append_assoc, List.singleton_append]
      exact take_cons_take c a l0 as.reverse

/-! ### Claim theorems -/

/-- C3: every ledger insertion (executions at capacity 50, data
operations at capacity 100, alerts at capacity 15) keeps the ledger within
capacity, prepends the new entry at the front, evicts only the oldest
entry and only when at capacity, and over any insertion sequence the
retained set equals the most recent capacity-many entries by insertion
order (newest first). -/
theorem C3_ledger_capacity (x : AgentExecution) (l : List AgentExecution)
    (y : DataOperation) (m : List DataOperation)
    (z : MonitoringAlert) (n : List MonitoringAlert)
    (xs : List AgentExecution) (ys : List DataOperation) (zs : List MonitoringAlert) :
    (insertExecution x l).length ≤ 50 ∧
    (insertDataOp y m).length ≤ 100 ∧
    (insertAlert z n).length ≤ 15 ∧
    (insertExecution x l).head? = some x ∧
    (insertDataOp y m).head? = some y ∧
    (insertAlert z n).head? = some z ∧
    (l.length < 50 → insertExecution x l = x :: l) ∧
    (l.length = 50 → insertExecution x l = x :: l.dropLast) ∧
    (m.length < 100 → insertDataOp y m = y :: m) ∧
    (m.length = 100 → insertDataOp y m = y :: m.dropLast) ∧
    (n.length < 15 → insertAlert z n = z :: n) ∧
    (n.length = 15 → insertAlert z n = z :: n.dropLast) ∧
    (l.length ≤ 50 →
      xs.foldl (fun acc e => insertExecution e acc) l = (xs.reverse ++ l).take 50) ∧
    (m.length ≤ 100 →
      ys.foldl (fun acc e => insertDataOp e acc) m = (ys.reverse ++ m).take 100) ∧
    (n.length ≤ 15 →
      zs.foldl (fun acc e => insertAlert e acc) n = (zs.reverse ++ n).take 15) := by
  refine ⟨?_, ?_, ?_, rfl, rfl, rfl, ?_, ?_, ?_, ?_, ?_, ?_, ?_, ?_, ?_⟩
  · simp [insertExecution]
  · simp [insertDataOp]
  · simp [insertAlert]
  · intro h
    simp [insertExecution, List.take_of_length_le (by omega : l.length ≤ 49)]
  · intro h
    simp [insertExecution, List.dropLast_eq_take, h]
  · intro h
    simp [insertDataOp, List.take_of_length_le (by omega : m.length ≤ 99)]
  · intro h
    simp [insertDataOp, List.dropLast_eq_take, h]
  · intro h
    simp [insertAlert, List.take_of_length_le (by omega : n.length ≤ 14)]
  · intro h
    simp [insertAlert, List.dropLast_eq_take, h]
  · intro h
    exact foldl_take_insert 50 (by omega) xs l h
  · intro h
    exact foldl_take_insert 100 (by omega) ys m h
  · intro h
    exact foldl_take_insert 15 (by omega) zs n h

/-- C4: within one tick, an execution whose forced-stop draw succeeds is
stopped (with an alert emitted) even when the completion threshold is also
exceeded: the stop check runs before the completion check. -/
theorem C4_stop_has_priority (now : ℚ) (d : ExecTickDraws) (e : AgentExecution)
    (hrun : e.status = Status.running) (hstop : d.rStop < 1/50)
    (_hcomp : e.duration + 2 > 3 + d.rThresh * 12) :
    (updateExec now d e).exec.status = Status.stopped ∧
    (updateExec now d e).emittedAlert = some (generateAlert e.agentName now d.alert) := by
  unfold updateExec
  rw [if_pos hrun, if_pos hstop]
  exact ⟨rfl, rfl⟩

/-- C5: the data-operation generator maps a draw below 0.9 to SELECT, a
draw in [0.9, 0.95) to INSERT and any other draw to UPDATE; it never
produces DELETE, and the SELECT branch is exactly the draws below 0.9. -/
theorem C5_operation_distribution (r : ℚ) (d : DataOpDraws) (a : String) (now : ℚ) :
    (r < 9/10 → genOpKind r = OpKind.SELECT) ∧
    (9/10 ≤ r → r < 95/100 → genOpKind r = OpKind.INSERT) ∧
    (95/100 ≤ r → genOpKind r = OpKind.UPDATE) ∧
    genOpKind r ≠ OpKind.DELETE ∧
    (generateDataOperation a now d).operation ≠ OpKind.DELETE ∧
    (genOpKind r = OpKind.SELECT ↔ r < 9/10) := by
  unfold generateDataOperation genOpKind
  refine ⟨fun h => by rw [if_pos h], fun h1 h2 => ?_, fun h => ?_, ?_, ?_, ?_⟩
  · rw [if_neg (by linarith), if_pos h2]
  · rw [if_neg (by linarith), if_neg (by linarith)]
  · split
    · simp
    · split <;> simp
  · simp only
    split
    · simp
    · split <;> simp
  · constructor
    · intro h
      by_contra hc
      rw [if_neg hc] at h
      revert h
      split <;> simp
    · intro h
      rw [if_pos h]

/-- C7 counterexample: starting from zero executions, a tick whose
forced-stop draw for the newly spawned execution succeeds leaves zero
running executions — the claimed post-tick bound of at least one running
execution fails for this outcome of the draws. -/
theorem C7_counterexample :
    ¬ 1 ≤ runningCount (tickExecutions 0 zeroSpawnDraws (fun _ => stopTickDraws) []) := by
  have hgen : (generateExecution 0 zeroSpawnDraws.gen).status = Status.running := rfl
  have hst : (updateExec 0 stopTickDraws (generateExecution 0 zeroSpawnDraws.gen)).exec.status =
      Status.stopped := by
    unfold updateExec
    rw [if_pos hgen, if_pos (by norm_num [stopTickDraws])]
  have h00 : runningCount ([] : List AgentExecution) = 0 := rfl
  have htick : tickExecutions 0 zeroSpawnDraws (fun _ => stopTickDraws) [] =
      [(updateExec 0 stopTickDraws (generateExecution 0 zeroSpawnDraws.gen)).exec] := by
    unfold tickExecutions spawnStep insertExecution
    rw [if_pos (Or.inl h00)]
    rfl
  rw [htick]
  simp [runningCount, List.filter_cons, hst]

/-- C7 amended: starting from zero running executions, the tick always
spawns a new execution; and whenever the spawned execution's forced-stop
draw fails (at least 0.02), the post-tick running count is at least 1. -/
theorem C7_spawn_after_zero (now : ℚ) (sd : SpawnDraws) (ds : ℕ → ExecTickDraws)
    (prev : List AgentExecution) (h0 : runningCount prev = 0)
    (hstop : ¬ (ds 0).rStop < 1/50) (hth : 0 ≤ (ds 0).rThresh) :
    spawnStep now sd prev = generateExecution now sd.gen :: prev.take 49 ∧
    1 ≤ runningCount (tickExecutions now sd ds prev) := by
  have hsp : spawnStep now sd prev = generateExecution now sd.gen :: prev.take 49 := by
    unfold spawnStep
    rw [if_pos (Or.inl h0)]
    rfl
  refine ⟨hsp, ?_⟩
  have hnc : ¬ ((generateExecution now sd.gen).duration + 2 > 3 + (ds 0).rThresh * 12) := by
    have h12 : 0 ≤ (ds 0).rThresh * 12 := mul_nonneg hth (by norm_num)
    show ¬ ((0 : ℚ) + 2 > 3 + (ds 0).rThresh * 12)
    push_neg
    linarith
  have hgen : (generateExecution now sd.gen).status = Status.running := rfl
  have hhead : (updateExec now (ds 0) (generateExecution now sd.gen)).exec.status =
      Status.running := by
    unfold updateExec
    rw [if_pos hgen, if_neg hstop, if_neg hnc]
    exact hgen
  unfold tickExecutions
  rw [hsp]
  rw [show updateAllFrom now ds 0 (generateExecution now sd.gen :: prev.take 49) =
        updateExec now (ds 0) (generateExecution now sd.gen) ::
          updateAllFrom now ds 1 (prev.take 49) from rfl,
    List.map_cons]
  simp only [runningCount, List.filter_cons, hhead]
  simp

/-- C8 counterexample: for a running execution with 10 seconds of
accumulated duration there is no fixed threshold that characterises the
tick's completion decision across the valid tick draws: a low threshold
draw completes it while a high threshold draw leaves it running, so the
compared threshold is not a value fixed once at spawn time. -/
theorem C8_counterexample :
    ¬ ∃ t : ℚ, ∀ d : ExecTickDraws, 1/50 ≤ d.rStop → 0 ≤ d.rThresh → d.rThresh < 1 →
      ((updateExec 0 d execAtTen).exec.status = Status.completed ↔
        execAtTen.duration + 2 > t) := by
  rintro ⟨t, h⟩
  have h1 := h lowThresholdDraws (by norm_num [lowThresholdDraws, stopTickDraws])
    (by norm_num [lowThresholdDraws, stopTickDraws])
    (by norm_num [lowThresholdDraws, stopTickDraws])
  have h2 := h highThresholdDraws (by norm_num [highThresholdDraws, stopTickDraws])
    (by norm_num [highThresholdDraws, stopTickDraws])
    (by norm_num [highThresholdDraws, stopTickDraws])
  have hten : execAtTen.status = Status.running := rfl
  have e1 : (updateExec 0 lowThresholdDraws execAtTen).exec.status = Status.completed := by
    unfold updateExec
    rw [if_pos hten, if_neg (by norm_num [lowThresholdDraws, stopTickDraws]),
      if_pos (by norm_num [lowThresholdDraws, stopTickDraws, execAtTen])]
  have e2 : (updateExec 0 highThresholdDraws execAtTen).exec.status = Status.running := by
    unfold updateExec
    rw [if_pos hten, if_neg (by norm_num [highThresholdDraws, stopTickDraws]),
      if_neg (by norm_num [highThresholdDraws, stopTickDraws, execAtTen])]
    exact hten
  rw [e1] at h1
  rw [e2] at h2
  exact absurd (h2.mpr (h1.mp rfl)) (by decide)

/-- C8 amended: the completion threshold is drawn afresh on every tick: a
running execution that is not force-stopped completes on a tick exactly
when its new duration exceeds that tick's draw `3 + rThresh * 12`, a value
ranging over [3, 15) for draws in [0, 1). -/
theorem C8_fresh_threshold (now : ℚ) (d : ExecTickDraws) (e : AgentExecution)
    (hrun : e.status = Status.running) (hstop : ¬ d.rStop < 1/50)
    (ht0 : 0 ≤ d.rThresh) (ht1 : d.rThresh < 1) :
    ((updateExec now d e).exec.status = Status.completed ↔
      e.duration + 2 > 3 + d.rThresh * 12) ∧
    3 ≤ 3 + d.rThresh * 12 ∧ 3 + d.rThresh * 12 < 15 := by
  refine ⟨?_, by nlinarith, by nlinarith⟩
  obtain ⟨an, op, stt, st0, du, dp⟩ := e
  simp only at hrun
  subst hrun
  unfold updateExec
  rw [if_pos rfl, if_neg hstop]
  constructor
  · intro h
    by_contra hc
    rw [if_neg hc] at h
    simp at h
  · intro h
    rw [if_pos h]

/-- C1: in a PricingAgent session with no response pending, sending the
message "Can you optimize our pricing strategy?" routes to the pricing
optimization handler; when the service call succeeds, resolving the
response makes exactly one call to the Pricing Service, invalidates the
`products` and `featured-products` query keys, and appends an agent
message whose metadata has category `pricing_optimization` and whose
actions include `price_updates`. -/
theorem C1_pricing_optimization_request (st : SessionState) (data : OptimizationResult)
    (hmsg : st.inputMessage = "Can you optimize our pricing strategy?".toList)
    (hpend : st.pending = []) :
    classify AgentType.PricingAgent st.inputMessage = Route.pricingOpt ∧
    (resolvePending AgentType.PricingAgent (Except.ok data)
      (handleSendMessage AgentType.PricingAgent st)).2.optimizeCalls = 1 ∧
    (resolvePending AgentType.PricingAgent (Except.ok data)
      (handleSendMessage AgentType.PricingAgent st)).2.invalidatedKeys =
        ["products", "featured-products"] ∧
    ∃ meta : Metadata,
      (resolvePending AgentType.PricingAgent (Except.ok data)
        (handleSendMessage AgentType.PricingAgent st)).1.messages.getLast? =
          some { role := MsgRole.agent, status := MessageStatus.completed,
                 metadata := some meta } ∧
      meta.category = "pricing_optimization" ∧
      "price_updates" ∈ meta.actions := by
  have htrim : ¬ jsTrim st.inputMessage = [] := by
    rw [hmsg]
    decide
  have hcl : classify AgentType.PricingAgent st.inputMessage = Route.pricingOpt := by
    rw [hmsg]
    decide
  have hsend : handleSendMessage AgentType.PricingAgent st =
      { messages := st.messages ++ [{ role := MsgRole.user, status := MessageStatus.sent }]
        inputMessage := []
        isTyping := true
        pending := [{ route := Route.pricingOpt, text := st.inputMessage }] } := by
    unfold handleSendMessage
    rw [if_neg htrim, hcl, hpend]
    rfl
  have hres : resolvePending AgentType.PricingAgent (Except.ok data)
      { messages := st.messages ++ [{ role := MsgRole.user, status := MessageStatus.sent }]
        inputMessage := []
        isTyping := true
        pending := [{ route := Route.pricingOpt, text := st.inputMessage }] } =
      ({ messages := (st.messages ++ [{ role := MsgRole.user, status := MessageStatus.sent }]) ++
            [{ role := MsgRole.agent, status := MessageStatus.completed,
               metadata := some optimizationSuccessMetadata }]
         inputMessage := []
         isTyping := false
         pending := [] },
       { optimizeCalls := 1, invalidatedKeys := ["products", "featured-products"] }) := rfl
  refine ⟨hcl, ?_, ?_, ?_⟩
  · rw [hsend, hres]
  · rw [hsend, hres]
  · rw [hsend, hres]
    refine ⟨optimizationSuccessMetadata, ?_, rfl, by simp [optimizationSuccessMetadata]⟩
    rw [List.append_assoc, List.getLast?_append]
    rfl

/-- C2: when the Pricing Service call for a pricing optimization request
rejects, the session still receives a normal completed agent response: the
metadata discloses that no changes were applied (optimization_applied is
false, category `pricing_analysis`), no query keys are invalidated, and
exactly one service call was made (no retry). -/
theorem C2_pricing_optimization_failure (st : SessionState)
    (hmsg : st.inputMessage = "Can you optimize our pricing strategy?".toList)
    (hpend : st.pending = []) :
    (resolvePending AgentType.PricingAgent (Except.error ())
      (handleSendMessage AgentType.PricingAgent st)).2.optimizeCalls = 1 ∧
    (resolvePending AgentType.PricingAgent (Except.error ())
      (handleSendMessage AgentType.PricingAgent st)).2.invalidatedKeys = [] ∧
    (resolvePending AgentType.PricingAgent (Except.error ())
      (handleSendMessage AgentType.PricingAgent st)).1.isTyping = false ∧
    ∃ meta : Metadata,
      (resolvePending AgentType.PricingAgent (Except.error ())
        (handleSendMessage AgentType.PricingAgent st)).1.messages.getLast? =
          some { role := MsgRole.agent, status := MessageStatus.completed,
                 metadata := some meta } ∧
      meta.category = "pricing_analysis" ∧
      meta.optimization_applied = some false := by
  have htrim : ¬ jsTrim st.inputMessage = [] := by
    rw [hmsg]
    decide
  have hcl : classify AgentType.PricingAgent st.inputMessage = Route.pricingOpt := by
    rw [hmsg]
    decide
  have hsend : handleSendMessage AgentType.PricingAgent st =
      { messages := st.messages ++ [{ role := MsgRole.user, status := MessageStatus.sent }]
        inputMessage := []
        isTyping := true
        pending := [{ route := Route.pricingOpt, text := st.inputMessage }] } := by
    unfold handleSendMessage
    rw [if_neg htrim, hcl, hpend]
    rfl
  have hres : resolvePending AgentType.PricingAgent (Except.error ())
      { messages := st.messages ++ [{ role := MsgRole.user, status := MessageStatus.sent }]
        inputMessage := []
        isTyping := true
        pending := [{ route := Route.pricingOpt, text := st.inputMessage }] } =
      ({ messages := (st.messages ++ [{ role := MsgRole.user, status := MessageStatus.sent }]) ++
            [{ role := MsgRole.agent, status := MessageStatus.completed,
               metadata := some optimizationFailureMetadata }]
         inputMessage := []
         isTyping := false
         pending := [] },
       { optimizeCalls := 1, invalidatedKeys := [] }) := rfl
  refine ⟨?_, ?_, ?_, ?_⟩
  · rw [hsend, hres]
  · rw [hsend, hres]
  · rw [hsend, hres]
  · rw [hsend, hres]
    refine ⟨optimizationFailureMetadata, ?_, rfl, rfl⟩
    rw [List.append_assoc, List.getLast?_append]
    rfl

/-- C9: while a response is pending (isTyping), both send affordances (the
send button and the Enter key on the input field) are disabled, so
invoking them leaves the session unchanged: no user message is appended
and no second response is enqueued; once the pending response resolves,
isTyping is cleared again. -/
theorem C9_send_disabled_while_pending (t : AgentType) (st : SessionState)
    (hty : st.isTyping = true) (_hne : jsTrim st.inputMessage ≠ []) :
    clickSend t st = st ∧ inputEnterKey t st = st ∧
    (∀ svc : Except Unit OptimizationResult,
      st.pending ≠ [] → (resolvePending t svc st).1.isTyping = false) := by
  refine ⟨?_, ?_, ?_⟩
  · unfold clickSend sendDisabled
    rw [hty]
    simp
  · unfold inputEnterKey
    rw [hty]
    simp
  · intro svc hp
    obtain ⟨p, rest, hpl⟩ : ∃ p rest, st.pending = p :: rest := by
      cases hl : st.pending with
      | nil => exact absurd hl hp
      | cons p rest => exact ⟨p, rest, rfl⟩
    unfold resolvePending
    rw [hpl]

/-- C6: every generated alert populates at most one numeric metric,
determined by its archetype; populated metrics lie within the archetype's
fixed range (confidence 45 to 75, data quality 60 to 85, accuracy 75 to
90); the confidence-score archetype is selected exactly when the selection
draw is below 0.7; and otherwise each of the five other archetypes is
selected on an index-draw interval of equal width 1/5. -/
theorem C6_alert_archetypes (name : String) (now : ℚ) (d : AlertDraws)
    (hc0 : 0 ≤ d.rConf) (hc1 : d.rConf < 1)
    (hq0 : 0 ≤ d.rQual) (hq1 : d.rQual < 1)
    (ha0 : 0 ≤ d.rAcc) (ha1 : d.rAcc < 1)
    (hi0 : 0 ≤ d.rIdx) (hi1 : d.rIdx < 1) :
    ([(generateAlert name now d).details.confidenceScore,
      (generateAlert name now d).details.accuracy,
      (generateAlert name now d).details.dataQuality].countP Option.isSome ≤ 1) ∧
    (∀ c, (generateAlert name now d).details.confidenceScore = some c → 45 ≤ c ∧ c ≤ 75) ∧
    (∀ c, (generateAlert name now d).details.dataQuality = some c → 60 ≤ c ∧ c ≤ 85) ∧
    (∀ c, (generateAlert name now d).details.accuracy = some c → 75 ≤ c ∧ c ≤ 90) ∧
    (selectedAlertIndex d = 0 ↔ d.rSel < 7/10) ∧
    (∀ k : ℕ, 1 ≤ k → k ≤ 5 →
      (selectedAlertIndex d = k ↔
        (7/10 : ℚ) ≤ d.rSel ∧ ((k : ℚ) - 1) / 5 ≤ d.rIdx ∧ d.rIdx < (k : ℚ) / 5)) := by
  have hlen5 : (((alertTypes d.rConf d.rQual d.rAcc).length - 1 : ℕ) : ℚ) = 5 := by
    show ((6 - 1 : ℕ) : ℚ) = 5
    norm_num
  have hf0 : 0 ≤ ⌊d.rIdx * 5⌋ := Int.floor_nonneg.mpr (by nlinarith)
  have hf5 : ⌊d.rIdx * 5⌋ < 5 := Int.floor_lt.mpr (by push_cast; nlinarith)
  have hsel : selectedAlertIndex d =
      if d.rSel < 7/10 then 0 else Int.toNat ⌊d.rIdx * 5⌋ + 1 := by
    unfold selectedAlertIndex
    rw [hlen5]
  have hn : selectedAlertIndex d ≤ 5 := by
    rw [hsel]
    split
    · omega
    · omega
  have hsplit : selectedAlertIndex d = 0 ∨ selectedAlertIndex d = 1 ∨
      selectedAlertIndex d = 2 ∨ selectedAlertIndex d = 3 ∨
      selectedAlertIndex d = 4 ∨ selectedAlertIndex d = 5 := by omega
  have gc : (generateAlert name now d).details.confidenceScore =
      ((alertTypes d.rConf d.rQual d.rAcc).getD (selectedAlertIndex d) emptyAlertType).confidenceScore := rfl
  have ga : (generateAlert name now d).details.accuracy =
      ((alertTypes d.rConf d.rQual d.rAcc).getD (selectedAlertIndex d) emptyAlertType).accuracy := rfl
  have gq : (generateAlert name now d).details.dataQuality =
      ((alertTypes d.rConf d.rQual d.rAcc).getD (selectedAlertIndex d) emptyAlertType).dataQuality := rfl
  have m0c : ((alertTypes d.rConf d.rQual d.rAcc).getD 0 emptyAlertType).confidenceScore =
      some (⌊d.rConf * 30⌋ + 45) := rfl
  have m0a : ((alertTypes d.rConf d.rQual d.rAcc).getD 0 emptyAlertType).accuracy = none := rfl
  have m0q : ((alertTypes d.rConf d.rQual d.rAcc).getD 0 emptyAlertType).dataQuality = none := rfl
  have m1c : ((alertTypes d.rConf d.rQual d.rAcc).getD 1 emptyAlertType).confidenceScore = none := rfl
  have m1a : ((alertTypes d.rConf d.rQual d.rAcc).getD 1 emptyAlertType).accuracy = none := rfl
  have m1q : ((alertTypes d.rConf d.rQual d.rAcc).getD 1 emptyAlertType).dataQuality =
      some (⌊d.rQual * 25⌋ + 60) := rfl
  have m2c : ((alertTypes d.rConf d.rQual d.rAcc).getD 2 emptyAlertType).confidenceScore = none := rfl
  have m2a : ((alertTypes d.rConf d.rQual d.rAcc).getD 2 emptyAlertType).accuracy =
      some (⌊d.rAcc * 15⌋ + 75) := rfl
  have m2q : ((alertTypes d.rConf d.rQual d.rAcc).getD 2 emptyAlertType).dataQuality = none := rfl
  have m3c : ((alertTypes d.rConf d.rQual d.rAcc).getD 3 emptyAlertType).confidenceScore = none := rfl
  have m3a : ((alertTypes d.rConf d.rQual d.rAcc).getD 3 emptyAlertType).accuracy = none := rfl
  have m3q : ((alertTypes d.rConf d.rQual d.rAcc).getD 3 emptyAlertType).dataQuality = none := rfl
  have m4c : ((alertTypes d.rConf d.rQual d.rAcc).getD 4 emptyAlertType).confidenceScore = none := rfl
  have m4a : ((alertTypes d.rConf d.rQual d.rAcc).getD 4 emptyAlertType).accuracy = none := rfl
  have m4q : ((alertTypes d.rConf d.rQual d.rAcc).getD 4 emptyAlertType).dataQuality = none := rfl
  have m5c : ((alertTypes d.rConf d.rQual d.rAcc).getD 5 emptyAlertType).confidenceScore = none := rfl
  have m5a : ((alertTypes d.rConf d.rQual d.rAcc).getD 5 emptyAlertType).accuracy = none := rfl
  have m5q : ((alertTypes d.rConf d.rQual d.rAcc).getD 5 emptyAlertType).dataQuality = none := rfl
  have hbc0 : 0 ≤ ⌊d.rConf * 30⌋ := Int.floor_nonneg.mpr (by nlinarith)
  have hbc1 : ⌊d.rConf * 30⌋ < 30 := Int.floor_lt.mpr (by push_cast; nlinarith)
  have hbq0 : 0 ≤ ⌊d.rQual * 25⌋ := Int.floor_nonneg.mpr (by nlinarith)
  have hbq1 : ⌊d.rQual * 25⌋ < 25 := Int.floor_lt.mpr (by push_cast; nlinarith)
  have hba0 : 0 ≤ ⌊d.rAcc * 15⌋ := Int.floor_nonneg.mpr (by nlinarith)
  have hba1 : ⌊d.rAcc * 15⌋ < 15 := Int.floor_lt.mpr (by push_cast; nlinarith)
  refine ⟨?_, ?_, ?_, ?_, ?_, ?_⟩
  · rcases hsplit with h | h | h | h | h | h <;>
      rw [gc, ga, gq, h] <;>
      simp only [m0c, m0a, m0q, m1c, m1a, m1q, m2c, m2a, m2q, m3c, m3a, m3q,
        m4c, m4a, m4q, m5c, m5a, m5q] <;>
      simp [List.countP_cons]
  · intro c hc
    rw [gc] at hc
    rcases hsplit with h | h | h | h | h | h <;> rw [h] at hc <;>
      simp only [m0c, m1c, m2c, m3c, m4c, m5c, Option.some.injEq] at hc <;>
      first
      | exact Option.noConfusion hc
      | omega
  · intro c hc
    rw [gq] at hc
    rcases hsplit with h | h | h | h | h | h <;> rw [h] at hc <;>
      simp only [m0q, m1q, m2q, m3q, m4q, m5q, Option.some.injEq] at hc <;>
      first
      | exact Option.noConfusion hc
      | omega
  · intro c hc
    rw [ga] at hc
    rcases hsplit with h | h | h | h | h | h <;> rw [h] at hc <;>
      simp only [m0a, m1a, m2a, m3a, m4a, m5a, Option.some.injEq] at hc <;>
      first
      | exact Option.noConfusion hc
      | omega
  · rw [hsel]
    constructor
    · intro h
      by_contra hs
      rw [if_neg hs] at h
      omega
    · intro h
      rw [if_pos h]
  · intro k hk1 hk5
    rw [hsel]
    by_cases hs : d.rSel < 7/10
    · rw [if_pos hs]
      constructor
      · intro h
        omega
      · rintro ⟨h, -⟩
        linarith
    · rw [if_neg hs]
      constructor
      · intro h
        have hfe : ⌊d.rIdx * 5⌋ = (k : ℤ) - 1 := by omega
        have hlow : ((⌊d.rIdx * 5⌋ : ℤ) : ℚ) ≤ d.rIdx * 5 := Int.floor_le _
        have hhigh : d.rIdx * 5 < ((⌊d.rIdx * 5⌋ : ℤ) : ℚ) + 1 := Int.lt_floor_add_one _
        rw [hfe] at hlow hhigh
        push_cast at hlow hhigh
        refine ⟨le_of_not_lt hs, by linarith, by linarith⟩
      · rintro ⟨-, hlo, hhi⟩
        have h5lo : (k : ℚ) - 1 ≤ d.rIdx * 5 := by
          rw [div_le_iff₀ (by norm_num : (0:ℚ) < 5)] at hlo
          linarith
        have h5hi : d.rIdx * 5 < (k : ℚ) := by
          rw [lt_div_iff₀ (by norm_num : (0:ℚ) < 5)] at hhi
          linarith
        have hfe : ⌊d.rIdx * 5⌋ = (k : ℤ) - 1 := by
          apply Int.floor_eq_iff.mpr
          constructor
          · push_cast
            linarith
          · push_cast
            linarith
        omega

/-- One tick update step only ever keeps the previous status or assigns
`stopped` or `completed`. -/
theorem updateExec_status (now : ℚ) (d : ExecTickDraws) (e : AgentExecution) :
    (updateExec now d e).exec.status = e.status ∨
    (updateExec now d e).exec.status = Status.stopped ∨
    (updateExec now d e).exec.status = Status.completed := by
  unfold updateExec
  split
  · split
    · right
      left
      rfl
    · split
      · right
        right
        rfl
      · left
        rfl
  · left
    rfl

/-- Every result of the tick's update map comes from updating some member
of the input ledger. -/
theorem mem_updateAllFrom (now : ℚ) (ds : ℕ → ExecTickDraws) :
    ∀ (start : ℕ) (l : List AgentExecution) (r : ExecStepResult),
      r ∈ updateAllFrom now ds start l → ∃ i e, e ∈ l ∧ r = updateExec now (ds i) e := by
  intro start l
  induction l generalizing start with
  | nil =>
      intro r h
      rw [updateAllFrom] at h
      cases h
  | cons a as ih =>
      intro r h
      rw [updateAllFrom] at h
      rcases List.mem_cons.mp h with h | h
      · exact ⟨start, a, List.mem_cons_self a as, h⟩
      · obtain ⟨i, e, he, hr⟩ := ih (start + 1) r h
        exact ⟨i, e, List.mem_cons_of_mem a he, hr⟩

/-- Every member of the spawn step's output is the freshly generated
execution or a member of the previous ledger. -/
theorem mem_spawnStep (now : ℚ) (sd : SpawnDraws) (prev : List AgentExecution)
    (e : AgentExecution) (h : e ∈ spawnStep now sd prev) :
    e = generateExecution now sd.gen ∨ e ∈ prev := by
  unfold spawnStep at h
  split at h
  · unfold insertExecution at h
    rcases List.mem_cons.mp h with h | h
    · exact Or.inl h
    · exact Or.inr (List.take_subset 49 prev h)
  · exact Or.inr h

/-- A tick never introduces a `failed` execution. -/
theorem tick_no_failed (now : ℚ) (sd : SpawnDraws) (ds : ℕ → ExecTickDraws)
    (l : List AgentExecution) (hl : ∀ e ∈ l, e.status ≠ Status.failed) :
    ∀ e ∈ tickExecutions now sd ds l, e.status ≠ Status.failed := by
  intro e he
  unfold tickExecutions at he
  obtain ⟨r, hr, hre⟩ := List.mem_map.mp he
  obtain ⟨i, x, hx, rfl⟩ := mem_updateAllFrom now ds 0 _ r hr
  subst hre
  have hxok : x.status ≠ Status.failed := by
    rcases mem_spawnStep now sd l x hx with h | h
    · have hg : (generateExecution now sd.gen).status = Status.running := rfl
      rw [h, hg]
      decide
    · exact hl x h
  rcases updateExec_status now (ds i) x with hs | hs | hs <;> rw [hs]
  · exact hxok
  · decide
  · decide

/-- No seeded initial execution is `failed` (the three seeding loops
assign `running`, `completed` and `stopped` respectively). -/
theorem initialExecutions_no_failed (now : ℚ) (nRun nComp nStop : ℕ)
    (fr fc fs : ℕ → InitExecDraws) :
    ∀ e ∈ initialExecutions now nRun nComp nStop fr fc fs, e.status ≠ Status.failed := by
  intro e he
  unfold initialExecutions at he
  rw [List.mem_mergeSort] at he
  rcases List.mem_append.mp he with h | h
  · rcases List.mem_append.mp h with h | h
    · obtain ⟨i, _, rfl⟩ := List.mem_map.mp h
      have hg : (initialRunning now (fr i)).status = Status.running := rfl
      rw [hg]
      decide
    · obtain ⟨i, _, rfl⟩ := List.mem_map.mp h
      have hg : (initialCompleted now (fc i)).status = Status.completed := rfl
      rw [hg]
      decide
  · obtain ⟨i, _, rfl⟩ := List.mem_map.mp h
    have hg : (initialStopped now (fs i)).status = Status.stopped := rfl
    rw [hg]
    decide

/-- C10: no reachable execution ever has status `failed`: the generator
creates executions as `running`, tick transitions assign only the previous
status, `stopped` or `completed`, and every execution reachable from the
initial seeding through any sequence of ticks has a status other than
`failed`. -/
theorem C10_no_failed_status (now : ℚ) (nRun nComp nStop : ℕ)
    (fr fc fs : ℕ → InitExecDraws) (ts : List TickDraws) :
    (∀ d : ExecGenDraws, (generateExecution now d).status = Status.running) ∧
    (∀ (d : ExecTickDraws) (e : AgentExecution),
      (updateExec now d e).exec.status = e.status ∨
      (updateExec now d e).exec.status = Status.stopped ∨
      (updateExec now d e).exec.status = Status.completed) ∧
    (∀ e ∈ runTicks now ts (initialExecutions now nRun nComp nStop fr fc fs),
      e.status ≠ Status.failed) := by
  refine ⟨fun d => rfl, fun d e => updateExec_status now d e, ?_⟩
  have hbase := initialExecutions_no_failed now nRun nComp nStop fr fc fs
  revert hbase
  generalize initialExecutions now nRun nComp nStop fr fc fs = l
  induction ts generalizing l with
  | nil => exact fun h => h
  | cons t rest ih =>
      intro h
      exact ih (tickExecutions now t.spawn t.execs l) (tick_no_failed now t.spawn t.execs l h)

/-! ### Witnesses -/

/-- A fresh PricingAgent session holding the optimization question. -/
def pricingSession : SessionState :=
  { messages := [], inputMessage := "Can you optimize our pricing strategy?".toList,
    isTyping := false, pending := [] }

/-- A concrete successful service payload. -/
def witnessOptResult : OptimizationResult :=
  { total_products_updated := some 7, average_increase_percent := some (32/10) }

/-- All-zero initial-seeding draws. -/
def zeroInitDraws : InitExecDraws :=
  { rAgent := 0, rOp := 0, rTime := 0, rDur := 0, rData := 0 }

/-- A session with a response pending and a non-empty input. -/
def typingSession : SessionState :=
  { messages := [], inputMessage := "hello".toList, isTyping := true,
    pending := [{ route := Route.regular, text := "hi".toList }] }

/-- A concrete data operation and alert for the ledger witnesses. -/
def witnessDataOp : DataOperation := generateDataOperation "InventoryAgent" 0 zeroDataOpDraws

/-- A concrete alert for the ledger witnesses. -/
def witnessAlert : MonitoringAlert := generateAlert "InventoryAgent" 0 zeroAlertDraws

/-- Witness for C1: the scenario run from a concrete fresh session. -/
theorem C1_witness :
    (resolvePending AgentType.PricingAgent (Except.ok witnessOptResult)
      (handleSendMessage AgentType.PricingAgent pricingSession)).2.optimizeCalls = 1 ∧
    (resolvePending AgentType.PricingAgent (Except.ok witnessOptResult)
      (handleSendMessage AgentType.PricingAgent pricingSession)).2.invalidatedKeys =
        ["products", "featured-products"] :=
  ⟨(C1_pricing_optimization_request pricingSession witnessOptResult rfl rfl).2.1,
   (C1_pricing_optimization_request pricingSession witnessOptResult rfl rfl).2.2.1⟩

/-- Witness for C2: the failing scenario run from a concrete session. -/
theorem C2_witness :
    (resolvePending AgentType.PricingAgent (Except.error ())
      (handleSendMessage AgentType.PricingAgent pricingSession)).2.optimizeCalls = 1 ∧
    (resolvePending AgentType.PricingAgent (Except.error ())
      (handleSendMessage AgentType.PricingAgent pricingSession)).2.invalidatedKeys = [] :=
  ⟨(C2_pricing_optimization_failure pricingSession rfl rfl).1,
   (C2_pricing_optimization_failure pricingSession rfl rfl).2.1⟩

/-- Witness for C3: below-capacity insertions evict nothing. -/
theorem C3_witness :
    insertExecution execAtTen [] = [execAtTen] ∧
    insertDataOp witnessDataOp [] = [witnessDataOp] ∧
    insertAlert witnessAlert [] = [witnessAlert] :=
  ⟨(C3_ledger_capacity execAtTen [] witnessDataOp [] witnessAlert [] [] [] []).2.2.2.2.2.2.1
      (by decide),
   (C3_ledger_capacity execAtTen [] witnessDataOp [] witnessAlert [] [] [] []).2.2.2.2.2.2.2.2.1
      (by decide),
   (C3_ledger_capacity execAtTen [] witnessDataOp [] witnessAlert [] [] [] []).2.2.2.2.2.2.2.2.2.2.1
      (by decide)⟩

/-- Witness for C4: a concrete execution that both would complete and is
force-stopped ends up stopped. -/
theorem C4_witness :
    (updateExec 0 stopTickDraws execAtTen).exec.status = Status.stopped ∧
    (updateExec 0 stopTickDraws execAtTen).emittedAlert =
      some (generateAlert execAtTen.agentName 0 stopTickDraws.alert) :=
  C4_stop_has_priority 0 stopTickDraws execAtTen rfl
    (by norm_num [stopTickDraws]) (by norm_num [execAtTen, stopTickDraws])

/-- Witness for C5: one concrete draw in each branch. -/
theorem C5_witness :
    genOpKind 0 = OpKind.SELECT ∧ genOpKind (92/100) = OpKind.INSERT ∧
    genOpKind (99/100) = OpKind.UPDATE :=
  ⟨(C5_operation_distribution 0 zeroDataOpDraws "" 0).1 (by norm_num),
   (C5_operation_distribution (92/100) zeroDataOpDraws "" 0).2.1 (by norm_num) (by norm_num),
   (C5_operation_distribution (99/100) zeroDataOpDraws "" 0).2.2.1 (by norm_num)⟩

/-- Witness for C6: the all-zero draw selects the confidence archetype. -/
theorem C6_witness :
    selectedAlertIndex zeroAlertDraws = 0 ↔ zeroAlertDraws.rSel < 7/10 :=
  (C6_alert_archetypes "InventoryAgent" 0 zeroAlertDraws
    (by norm_num [zeroAlertDraws]) (by norm_num [zeroAlertDraws])
    (by norm_num [zeroAlertDraws]) (by norm_num [zeroAlertDraws])
    (by norm_num [zeroAlertDraws]) (by norm_num [zeroAlertDraws])
    (by norm_num [zeroAlertDraws]) (by norm_num [zeroAlertDraws])).2.2.2.2.1

/-- Witness for C7 (amended): a failing stop draw keeps the spawned
execution running. -/
theorem C7_witness :
    1 ≤ runningCount (tickExecutions 0 zeroSpawnDraws (fun _ => lowThresholdDraws) []) :=
  (C7_spawn_after_zero 0 zeroSpawnDraws (fun _ => lowThresholdDraws) [] rfl
    (by norm_num [lowThresholdDraws, stopTickDraws])
    (by norm_num [lowThresholdDraws, stopTickDraws])).2

/-- Witness for C8 (amended): the completion equivalence at a concrete
execution and draw. -/
theorem C8_witness :
    ((updateExec 0 lowThresholdDraws execAtTen).exec.status = Status.completed ↔
      execAtTen.duration + 2 > 3 + lowThresholdDraws.rThresh * 12) ∧
    3 ≤ 3 + lowThresholdDraws.rThresh * 12 ∧ 3 + lowThresholdDraws.rThresh * 12 < 15 :=
  C8_fresh_threshold 0 lowThresholdDraws execAtTen rfl
    (by norm_num [lowThresholdDraws, stopTickDraws])
    (by norm_num [lowThresholdDraws, stopTickDraws])
    (by norm_num [lowThresholdDraws, stopTickDraws])

/-- Witness for C9: both affordances are inert on a concrete session with
a pending response. -/
theorem C9_witness :
    clickSend AgentType.PricingAgent typingSession = typingSession ∧
    inputEnterKey AgentType.PricingAgent typingSession = typingSession :=
  ⟨(C9_send_disabled_while_pending AgentType.PricingAgent typingSession rfl (by decide)).1,
   (C9_send_disabled_while_pending AgentType.PricingAgent typingSession rfl (by decide)).2.1⟩

/-- Witness for C10: a concrete seeded execution is not failed. -/
theorem C10_witness : (initialRunning 0 zeroInitDraws).status ≠ Status.failed := by
  have hmem : initialRunning 0 zeroInitDraws ∈
      runTicks 0 [] (initialExecutions 0 1 0 0 (fun _ => zeroInitDraws)
        (fun _ => zeroInitDraws) (fun _ => zeroInitDraws)) := by
    show initialRunning 0 zeroInitDraws ∈ initialExecutions 0 1 0 0 (fun _ => zeroInitDraws)
      (fun _ => zeroInitDraws) (fun _ => zeroInitDraws)
    unfold initialExecutions
    rw [List.mem_mergeSort]
    simp
  exact (C10_no_failed_status 0 1 0 0 (fun _ => zeroInitDraws) (fun _ => zeroInitDraws)
    (fun _ => zeroInitDraws) []).2.2 (initialRunning 0 zeroInitDraws) hmem

end CompanyOS
